import Mathlib

/-!
Verification of the box2dpp narrow-phase collision kernel.

Shallow embedding conventions:
* `float` values are modelled as exact rationals (`ℚ`); machine rounding is
  not modelled.  All claims settled here are either control-flow properties
  that do not depend on rounding, or exact-arithmetic statements that the
  spec itself phrases in exact terms.
* `std::sqrt` is modelled by `Rat.sqrt`, which is exact whenever the operand
  is the square of a rational; every concrete input used in the theorems
  below only takes square roots of perfect squares.
* `FLT_EPSILON` is exactly `2⁻²³`, `FLT_MAX` is exactly `2¹²⁸ − 2¹⁰⁴`.
* fixed-capacity arrays (`points[8]`, `vertices[3]`, ...) are modelled as
  lists or explicit fields; C++ aggregate initialisation `{}` zero-fills the
  unused slots, so out-of-range reads are modelled by `getD _ Vec2.zero`.
* `BPP_ASSERT` is a debug-build no-op and is not modelled.
-/

/-- `std::numeric_limits<float>::epsilon()`, exactly `2⁻²³`. -/
def floatEpsilon : ℚ := 1 / 2 ^ 23

/-- `std::numeric_limits<float>::max()`, exactly `(2 − 2⁻²³)·2¹²⁷`. -/
def floatMax : ℚ := 2 ^ 128 - 2 ^ 104

/-- `BPP_MAX_POLYGON_VERTICES`. Modelled from the spec: the cmake cache
value is not part of the snapshot; the spec fixes it to 8. -/
def BPP_MAX_POLYGON_VERTICES : Nat := 8

/-- `BPP_COLLISION_DISTANCE_MAX_ITERATIONS`. Modelled from the spec: the
cmake cache value is not part of the snapshot; the spec fixes it to 20. -/
def BPP_COLLISION_DISTANCE_MAX_ITERATIONS : Nat := 20

/-- `BPP_LINEAR_SLOP`. Modelled from the spec: the cmake cache value is not
part of the snapshot; the spec gives ~0.005 world units. -/
def BPP_LINEAR_SLOP : ℚ := 5 / 1000

/-- `std::ranges::clamp(v, lo, hi)`. -/
def clamp (v lo hi : ℚ) : ℚ :=
  if v < lo then lo else if hi < v then hi else v

/-- box2dpp `Vec2` (float pair, components exact rationals here). -/
structure Vec2 where
  x : ℚ
  y : ℚ
deriving DecidableEq, Repr

def Vec2.zero : Vec2 := ⟨0, 0⟩

instance : Add Vec2 := ⟨fun a b => ⟨a.x + b.x, a.y + b.y⟩⟩

instance : Sub Vec2 := ⟨fun a b => ⟨a.x - b.x, a.y - b.y⟩⟩

instance : Neg Vec2 := ⟨fun a => ⟨-a.x, -a.y⟩⟩

instance : HMul ℚ Vec2 Vec2 := ⟨fun s v => ⟨s * v.x, s * v.y⟩⟩

/-- `Vec2::dot`. -/
def Vec2.dot (a b : Vec2) : ℚ := a.x * b.x + a.y * b.y

/-- `Vec2::cross(Vec2)` (scalar 2D cross product). -/
def Vec2.cross (a b : Vec2) : ℚ := a.x * b.y - a.y * b.x

/-- `Vec2::cross(float)`: `{y*s, -x*s}`. -/
def Vec2.crossScalar (v : Vec2) (s : ℚ) : Vec2 := ⟨v.y * s, -v.x * s⟩

/-- free function `cross(scalar, vec2) = vec2.cross(-scalar)`. -/
def scalarCross (s : ℚ) (v : Vec2) : Vec2 := v.crossScalar (-s)

/-- `Vec2::length_squared`. -/
def Vec2.lengthSquared (v : Vec2) : ℚ := v.dot v

/-- `Vec2::length` (float sqrt modelled by `Rat.sqrt`). -/
def Vec2.length (v : Vec2) : ℚ := Rat.sqrt v.lengthSquared

/-- `Vec2::normalize(float&)`: returns the unit vector and the length;
near-zero length yields the zero vector. -/
def Vec2.normalizeLen (v : Vec2) : Vec2 × ℚ :=
  let length := v.length
  if length < floatEpsilon then (Vec2.zero, length)
  else ((1 / length) * v, length)

/-- `Vec2::normalize()`. -/
def Vec2.normalize (v : Vec2) : Vec2 := v.normalizeLen.1

/-- `multiply_add(a, s, b) = a + s * b`. -/
def multiplyAdd (a : Vec2) (s : ℚ) (b : Vec2) : Vec2 := a + s * b

/-- `multiply_sub(a, s, b) = a - s * b`. -/
def multiplySub (a : Vec2) (s : ℚ) (b : Vec2) : Vec2 := a - s * b

/-- `Vec2::distance`. -/
def Vec2.distance (a b : Vec2) : ℚ := (b - a).length

/-- `Vec2::distance_squared`. -/
def Vec2.distanceSquared (a b : Vec2) : ℚ := (b - a).lengthSquared

/-- `Vec2::lerp`. -/
def Vec2.lerp (a b : Vec2) (t : ℚ) : Vec2 :=
  ⟨(1 - t) * a.x + t * b.x, (1 - t) * a.y + t * b.y⟩

/-- box2dpp `Rotation` (unit complex number). -/
structure Rotation where
  cos : ℚ
  sin : ℚ
deriving DecidableEq, Repr

def Rotation.identity : Rotation := ⟨1, 0⟩

/-- `Rotation::rotate`. -/
def Rotation.rotate (q : Rotation) (v : Vec2) : Vec2 :=
  ⟨q.cos * v.x - q.sin * v.y, q.cos * v.y + q.sin * v.x⟩

/-- `Rotation::inv` (conjugate). -/
def Rotation.inv (q : Rotation) : Rotation := ⟨q.cos, -q.sin⟩

/-- `Rotation::inv_rotate = inv().rotate`. -/
def Rotation.invRotate (q : Rotation) (v : Vec2) : Vec2 := q.inv.rotate v

/-- `Rotation::multiply` (complex multiplication). -/
def Rotation.multiply (q o : Rotation) : Rotation :=
  ⟨q.cos * o.cos - q.sin * o.sin, q.sin * o.cos + q.cos * o.sin⟩

/-- `Rotation::inv_multiply = inv().multiply(other)`. -/
def Rotation.invMultiply (q o : Rotation) : Rotation := q.inv.multiply o

/-- `Rotation::normalize`. -/
def Rotation.normalize (q : Rotation) : Rotation :=
  let length := (Vec2.mk q.sin q.cos).length
  if length ≤ 0 then ⟨1, 0⟩
  else ⟨q.cos * (1 / length), q.sin * (1 / length)⟩

/-- box2dpp `Transform` (rigid motion: rotate then translate). -/
structure Transform where
  point : Vec2
  rotation : Rotation
deriving DecidableEq, Repr

def Transform.identity : Transform := ⟨Vec2.zero, Rotation.identity⟩

/-- `Transform::transform(p) = rotation.rotate(p) + point`. -/
def Transform.transform (t : Transform) (p : Vec2) : Vec2 :=
  t.rotation.rotate p + t.point

/-- `Transform::inv_transform(p) = rotation.inv_rotate(p - point)`. -/
def Transform.invTransform (t : Transform) (p : Vec2) : Vec2 :=
  t.rotation.invRotate (p - t.point)

/-- `Transform::inv_multiply(other)`: rotation `this⁻¹ × other`, point
`other.point - r.rotate(point)`. -/
def Transform.invMultiply (t other : Transform) : Transform :=
  let r := t.rotation.invMultiply other.rotation
  ⟨other.point - r.rotate t.point, r⟩

/-- box2dpp `Capsule` shape. -/
structure Capsule where
  center1 : Vec2
  center2 : Vec2
  radius : ℚ
deriving DecidableEq, Repr

/-- `Capsule::in(point)`, exactly as the source computes it: the degenerate
circle branch compares squared distance against `r²`, while the segment
branch compares squared distance against `radius` (not squared). -/
def Capsule.isIn (c : Capsule) (point : Vec2) : Bool :=
  let r2 := c.radius * c.radius
  if c.center2 = c.center1 then
    decide (c.center1.distanceSquared point ≤ r2)
  else
    let diff := c.center2 - c.center1
    let diffL2 := diff.lengthSquared
    let t := clamp ((point - c.center1).dot diff / diffL2) 0 1
    let cp := c.center1 + t * diff
    decide (point.distanceSquared cp ≤ c.radius)

/-- box2dpp `AABB`. -/
structure AABB where
  lower : Vec2
  upper : Vec2
deriving DecidableEq, Repr

/-- `AABB::valid()`: width/height non-negative and coordinates finite
(finiteness always holds in the rational model). -/
def AABB.valid (a : AABB) : Bool :=
  let d := a.upper - a.lower
  if d.x < 0 ∨ d.y < 0 then false else true

/-- `AABB::center()`. -/
def AABB.center (a : AABB) : Vec2 := (1 / 2 : ℚ) * (a.lower + a.upper)

/-- `AABB::combination_max(point)`: component-wise min on lower, max on
upper. -/
def AABB.combinationMaxPoint (a : AABB) (p : Vec2) : AABB :=
  ⟨⟨min a.lower.x p.x, min a.lower.y p.y⟩, ⟨max a.upper.x p.x, max a.upper.y p.y⟩⟩

/-- `AABB::compute(std::span<const Vec2>, float)`: the source is a
`// todo` stub returning a value-initialised (zero) AABB. -/
def AABB.computePoints (_points : List Vec2) (_radius : ℚ) : AABB :=
  ⟨Vec2.zero, Vec2.zero⟩

/-- `ShapeProxy`: point cloud plus radius; `count` is the list length, and
reads beyond it yield the zero-filled array slots. -/
structure ShapeProxy where
  points : List Vec2
  radius : ℚ
deriving DecidableEq, Repr

/-- array read `proxy.points[i]` (slots beyond `count` are zero-filled). -/
def ShapeProxy.point (p : ShapeProxy) (i : Nat) : Vec2 := p.points.getD i Vec2.zero

/-- scan of `ShapeProxy::find_support`: first strictly greater dot product
wins, starting from index 0. -/
def findSupportLoop (pts : List Vec2) (direction : Vec2) (i bestIndex : Nat)
    (bestValue : ℚ) : Nat :=
  match pts with
  | [] => bestIndex
  | p :: rest =>
    if bestValue < p.dot direction then
      findSupportLoop rest direction (i + 1) i (p.dot direction)
    else
      findSupportLoop rest direction (i + 1) bestIndex bestValue

/-- `ShapeProxy::find_support`: near-zero direction returns index 0,
otherwise the argmax scan. -/
def ShapeProxy.findSupport (p : ShapeProxy) (direction : Vec2) : Nat :=
  if direction.lengthSquared < floatEpsilon then 0
  else findSupportLoop (p.points.drop 1) direction 1 0 ((p.point 0).dot direction)

/-- `SimplexCache::Type` (also the number of cached index pairs). -/
inductive SimplexCacheType where
  | uninitialized
  | point
  | lineSegment
  | triangle
deriving DecidableEq, Repr

/-- `SimplexCache`: simplex type plus two index triples (arrays of 3,
zero-filled). -/
structure SimplexCache where
  type : SimplexCacheType
  indexA0 : Nat
  indexA1 : Nat
  indexA2 : Nat
  indexB0 : Nat
  indexB1 : Nat
  indexB2 : Nat
deriving DecidableEq, Repr

/-- `SimplexCache::zero`. -/
def SimplexCache.zero : SimplexCache := ⟨.uninitialized, 0, 0, 0, 0, 0, 0⟩

/-- `Simplex::Type` (1, 2 or 3 active vertices). -/
inductive SimplexType where
  | point
  | lineSegment
  | triangle
deriving DecidableEq, Repr

/-- number of active vertices of a `Simplex::Type`. -/
def SimplexType.toNat : SimplexType → Nat
  | .point => 1
  | .lineSegment => 2
  | .triangle => 3

/-- `static_cast<Simplex::Type>(type + 1)` as used to grow the simplex. -/
def SimplexType.succ : SimplexType → SimplexType
  | .point => .lineSegment
  | .lineSegment => .triangle
  | .triangle => .triangle

/-- `SimplexVertex`. -/
structure SimplexVertex where
  wA : Vec2
  wB : Vec2
  w : Vec2
  weight : ℚ
  indexA : Nat
  indexB : Nat
deriving DecidableEq, Repr

/-- a zero-initialised `SimplexVertex` (aggregate `{}`). -/
def SimplexVertex.zero : SimplexVertex := ⟨Vec2.zero, Vec2.zero, Vec2.zero, 0, 0, 0⟩

/-- `Simplex`: fixed array of 3 vertices plus the active type. -/
structure Simplex where
  v0 : SimplexVertex
  v1 : SimplexVertex
  v2 : SimplexVertex
  type : SimplexType
deriving DecidableEq, Repr

/-- `Simplex::create(cache, proxy_a, proxy_b)`: fresh point simplex when the
cache is uninitialized, otherwise restore all three vertex slots from the
cached index pairs (weights set to the invalid marker `-1`). -/
def Simplex.create (cache : SimplexCache) (pa pb : ShapeProxy) : Simplex :=
  match cache.type with
  | .uninitialized =>
    let wa := pa.point 0
    let wb := pb.point 0
    { v0 := ⟨wa, wb, wa - wb, 1, 0, 0⟩, v1 := SimplexVertex.zero,
      v2 := SimplexVertex.zero, type := .point }
  | t =>
    let mk := fun (ia ib : Nat) =>
      (⟨pa.point ia, pb.point ib, pa.point ia - pb.point ib, -1, ia, ib⟩ : SimplexVertex)
    { v0 := mk cache.indexA0 cache.indexB0,
      v1 := mk cache.indexA1 cache.indexB1,
      v2 := mk cache.indexA2 cache.indexB2,
      type := match t with
              | .uninitialized => .point
              | .point => .point
              | .lineSegment => .lineSegment
              | .triangle => .triangle }

/-- `Simplex::cache()`: store the first `type` index pairs, rest zero. -/
def Simplex.cache (s : Simplex) : SimplexCache :=
  match s.type with
  | .point => ⟨.point, s.v0.indexA, 0, 0, s.v0.indexB, 0, 0⟩
  | .lineSegment =>
    ⟨.lineSegment, s.v0.indexA, s.v1.indexA, 0, s.v0.indexB, s.v1.indexB, 0⟩
  | .triangle =>
    ⟨.triangle, s.v0.indexA, s.v1.indexA, s.v2.indexA,
      s.v0.indexB, s.v1.indexB, s.v2.indexB⟩

/-- `Simplex::solve1`: direction from the single point to the origin. -/
def Simplex.solve1 (s : Simplex) : Vec2 := -s.v0.w

/-- `Simplex::solve2`: Voronoi-region classification of the origin against
the segment `w1-w2`; returns the updated simplex and the search direction. -/
def Simplex.solve2 (s : Simplex) : Simplex × Vec2 :=
  let w1 := s.v0.w
  let w2 := s.v1.w
  let e12 := w2 - w1
  let d12_2 := -(w1.dot e12)
  if d12_2 ≤ 0 then
    ({ s with v0 := { s.v0 with weight := 1 }, type := .point }, -w1)
  else
    let d12_1 := w2.dot e12
    if d12_1 ≤ 0 then
      let v1w := { s.v1 with weight := 1 }
      ({ s with v0 := v1w, v1 := v1w, type := .point }, -w2)
    else
      let invD12 := 1 / (d12_1 + d12_2)
      ({ s with
          v0 := { s.v0 with weight := d12_1 * invD12 },
          v1 := { s.v1 with weight := d12_2 * invD12 },
          type := .lineSegment },
        scalarCross ((w1 + w2).cross e12) e12)

/-- `Simplex::solve3`: full 2-simplex Voronoi classification. -/
def Simplex.solve3 (s : Simplex) : Simplex × Vec2 :=
  let w1 := s.v0.w
  let w2 := s.v1.w
  let w3 := s.v2.w
  let e12 := w2 - w1
  let d12_1 := w2.dot e12
  let d12_2 := -(w1.dot e12)
  let e13 := w3 - w1
  let d13_1 := w3.dot e13
  let d13_2 := -(w1.dot e13)
  let e23 := w3 - w2
  let d23_1 := w3.dot e23
  let d23_2 := -(w2.dot e23)
  let n123 := e12.cross e13
  let d123_1 := n123 * w2.cross w3
  let d123_2 := n123 * w3.cross w1
  let d123_3 := n123 * w1.cross w2
  if d12_2 ≤ 0 ∧ d13_2 ≤ 0 then
    ({ s with v0 := { s.v0 with weight := 1 }, type := .point }, -w1)
  else if d12_1 > 0 ∧ d12_2 > 0 ∧ d123_3 ≤ 0 then
    let invD12 := 1 / (d12_1 + d12_2)
    ({ s with
        v0 := { s.v0 with weight := d12_1 * invD12 },
        v1 := { s.v1 with weight := d12_2 * invD12 },
        type := .lineSegment },
      scalarCross ((w1 + w2).cross e12) e12)
  else if d13_1 > 0 ∧ d13_2 > 0 ∧ d123_2 ≤ 0 then
    let invD13 := 1 / (d13_1 + d13_2)
    let v0w := { s.v0 with weight := d13_1 * invD13 }
    let v2w := { s.v2 with weight := d13_2 * invD13 }
    ({ s with v0 := v0w, v1 := v2w, v2 := v2w, type := .lineSegment },
      scalarCross ((w1 + w3).cross e13) e13)
  else if d12_1 ≤ 0 ∧ d23_2 ≤ 0 then
    let v1w := { s.v1 with weight := 1 }
    ({ s with v0 := v1w, v1 := v1w, type := .point }, -w2)
  else if d13_1 ≤ 0 ∧ d23_1 ≤ 0 then
    let v2w := { s.v2 with weight := 1 }
    ({ s with v0 := v2w, v2 := v2w, type := .point }, -w3)
  else if d23_1 > 0 ∧ d23_2 > 0 ∧ d123_1 ≤ 0 then
    let invD23 := 1 / (d23_1 + d23_2)
    let v1w := { s.v1 with weight := d23_1 * invD23 }
    let v2w := { s.v2 with weight := d23_2 * invD23 }
    ({ s with v0 := v2w, v1 := v1w, v2 := v2w, type := .lineSegment },
      scalarCross ((w2 + w3).cross e23) e23)
  else
    let invD123 := 1 / (d123_1 + d123_2 + d123_3)
    ({ s with
        v0 := { s.v0 with weight := d123_1 * invD123 },
        v1 := { s.v1 with weight := d123_2 * invD123 },
        v2 := { s.v2 with weight := d123_3 * invD123 },
        type := .triangle },
      Vec2.zero)

/-- `Simplex::solve()`: dispatch on the simplex type. -/
def Simplex.solve (s : Simplex) : Simplex × Vec2 :=
  match s.type with
  | .point => (s, s.solve1)
  | .lineSegment => s.solve2
  | .triangle => s.solve3

/-- `Simplex::compute_closest_points()`: barycentric combination of the
active vertices, separately on shape A and shape B. -/
def Simplex.computeClosestPoints (s : Simplex) : Vec2 × Vec2 :=
  match s.type with
  | .point => (s.v0.wA, s.v0.wB)
  | .lineSegment =>
    (s.v0.weight * s.v0.wA + s.v1.weight * s.v1.wA,
      s.v0.weight * s.v0.wB + s.v1.weight * s.v1.wB)
  | .triangle =>
    (s.v0.weight * s.v0.wA + s.v1.weight * s.v1.wA + s.v2.weight * s.v2.wA,
      s.v0.weight * s.v0.wB + s.v1.weight * s.v1.wB + s.v2.weight * s.v2.wB)

/-- the `save_a`/`save_b` stack arrays of the GJK loop (three index pairs;
the function-local arrays are read in full by the duplicate check, entries
not yet written are modelled as zero). -/
structure Save3 where
  a0 : Nat
  b0 : Nat
  a1 : Nat
  b1 : Nat
  a2 : Nat
  b2 : Nat
deriving DecidableEq, Repr

def Save3.zero : Save3 := ⟨0, 0, 0, 0, 0, 0⟩

/-- copy the first `type` vertex index pairs of the simplex into the save
arrays, leaving the remaining entries as they were. -/
def Save3.write (s : Simplex) (old : Save3) : Save3 :=
  match s.type with
  | .point => ⟨s.v0.indexA, s.v0.indexB, old.a1, old.b1, old.a2, old.b2⟩
  | .lineSegment =>
    ⟨s.v0.indexA, s.v0.indexB, s.v1.indexA, s.v1.indexB, old.a2, old.b2⟩
  | .triangle =>
    ⟨s.v0.indexA, s.v0.indexB, s.v1.indexA, s.v1.indexB, s.v2.indexA, s.v2.indexB⟩

/-- `std::ranges::contains(zip(save_a, save_b), ...)`: does the new support
index pair duplicate one of the three saved pairs? -/
def Save3.contains (saves : Save3) (ia ib : Nat) : Bool :=
  (saves.a0 = ia ∧ saves.b0 = ib) ∨ (saves.a1 = ia ∧ saves.b1 = ib) ∨
    (saves.a2 = ia ∧ saves.b2 = ib)

/-- exit state of the GJK main loop of `Distance::compute`: the simplex at
exit, the last saved non-unit normal, and whether the loop exited through
one of the two overlap returns (triangle containment / near-zero search
direction). -/
structure GJKExit where
  simplex : Simplex
  nonUnitNormal : Vec2
  overlap : Bool
deriving DecidableEq, Repr

/-- outcome of one iteration of the GJK main loop: an exit (overlap return,
or duplicate-support break), or the next iteration's state. -/
inductive GJKStepResult where
  | exit (e : GJKExit)
  | next (s : Simplex) (n : Vec2) (saves : Save3)
deriving DecidableEq, Repr

/-- one iteration of the GJK main loop of `Distance::compute`: save the
index pairs, solve the simplex, take an overlap exit on triangle
containment or a near-zero direction, otherwise append the new support
point and exit on a duplicate pair. -/
def gjkStep (pa pb : ShapeProxy) (s : Simplex) (n : Vec2) (saves : Save3) :
    GJKStepResult :=
  let saves1 := Save3.write s saves
  let sd := s.solve
  let s1 := sd.1
  let d := sd.2
  if s1.type = .triangle then .exit ⟨s1, n, true⟩
  else if d.dot d < floatEpsilon * floatEpsilon then .exit ⟨s1, n, true⟩
  else
    let ia := pa.findSupport d
    let ib := pb.findSupport (-d)
    let wa := pa.point ia
    let wb := pb.point ib
    let upd := fun (v : SimplexVertex) =>
      { v with wA := wa, wB := wb, w := wa - wb, indexA := ia, indexB := ib }
    let s2 := match s1.type with
      | .point => { s1 with v1 := upd s1.v1 }
      | .lineSegment => { s1 with v2 := upd s1.v2 }
      | .triangle => s1
    if saves1.contains ia ib then .exit ⟨s2, d, false⟩
    else .next { s2 with type := s2.type.succ } d saves1

/-- the main iteration loop of `Distance::compute` (fuel =
`BPP_COLLISION_DISTANCE_MAX_ITERATIONS`). -/
def gjkLoop (pa pb : ShapeProxy) : Nat → Simplex → Vec2 → Save3 → GJKExit
  | 0, s, n, _ => ⟨s, n, false⟩
  | fuel + 1, s, n, saves =>
    match gjkStep pa pb s n saves with
    | .exit e => e
    | .next s1 n1 saves1 => gjkLoop pa pb fuel s1 n1 saves1

/-- `DistanceInput`. -/
structure DistanceInput where
  proxyA : ShapeProxy
  proxyB : ShapeProxy
  transformA : Transform
  transformB : Transform
  useRadii : Bool
deriving DecidableEq, Repr

/-- `Distance` (the output of `Distance::compute`). -/
structure DistanceResult where
  pointA : Vec2
  pointB : Vec2
  normal : Vec2
  distance : ℚ
deriving DecidableEq, Repr

/-- full observable state of one `Distance::compute` call: the returned
output, the final value of the in/out cache, the simplex at exit and the
exit path taken. -/
structure DistanceTrace where
  result : DistanceResult
  cacheOut : SimplexCache
  exitSimplex : Simplex
  overlapExit : Bool
deriving DecidableEq, Repr

/-- epilogue of `Distance::compute` after the GJK loop: the two overlap
returns (which leave the caller's cache untouched), or the normal path
(normalize the direction, compute the witness points, refresh the cache,
then apply the radii if requested). -/
def Distance.finishTrace (input : DistanceInput) (cache : SimplexCache)
    (e : GJKExit) : DistanceTrace :=
  if e.overlap then
    let cp := e.simplex.computeClosestPoints
    { result := ⟨input.transformA.transform cp.1, input.transformA.transform cp.2,
        Vec2.zero, 0⟩,
      cacheOut := cache, exitSimplex := e.simplex, overlapExit := true }
  else
    let normal := input.transformA.rotation.rotate e.nonUnitNormal.normalize
    let cp := e.simplex.computeClosestPoints
    let base : DistanceResult :=
      ⟨input.transformA.transform cp.1, input.transformA.transform cp.2,
        normal, cp.1.distance cp.2⟩
    let result := if input.useRadii then
        { base with
          distance := max (base.distance - input.proxyA.radius - input.proxyB.radius) 0,
          pointA := multiplyAdd base.pointA input.proxyA.radius normal,
          pointB := multiplySub base.pointB input.proxyB.radius normal }
      else base
    { result := result, cacheOut := e.simplex.cache, exitSimplex := e.simplex,
      overlapExit := false }

/-- `Distance::compute(input, inout_cache)`: localize B into frame A, run
the GJK loop, then produce the output. -/
def Distance.computeTrace (input : DistanceInput) (cache : SimplexCache) : DistanceTrace :=
  let t := input.transformA.invMultiply input.transformB
  let localB : ShapeProxy := ⟨input.proxyB.points.map t.transform, input.proxyB.radius⟩
  let s0 := Simplex.create cache input.proxyA localB
  Distance.finishTrace input cache
    (gjkLoop input.proxyA localB BPP_COLLISION_DISTANCE_MAX_ITERATIONS s0
      Vec2.zero Save3.zero)

/-- `Distance::compute(input)` (fresh zero cache). -/
def Distance.compute (input : DistanceInput) : DistanceResult :=
  (Distance.computeTrace input SimplexCache.zero).result

/-- `ShapeCastPairInput`. -/
structure ShapeCastPairInput where
  proxyA : ShapeProxy
  proxyB : ShapeProxy
  transformA : Transform
  transformB : Transform
  translationB : Vec2
  maxFraction : ℚ
  canEncroach : Bool
deriving DecidableEq, Repr

/-- `ShapeCastOutput`. -/
structure ShapeCastOutput where
  normal : Vec2
  point : Vec2
  fraction : ℚ
deriving DecidableEq, Repr

/-- mutable state of the `ShapeCast::test` sweep loop: the (possibly
encroach-tightened) target, the advanced fraction, the advanced transform
of B, the warm-start cache, and the iteration index. -/
structure CastState where
  target : ℚ
  fraction : ℚ
  transformB : Transform
  cache : SimplexCache
  iteration : Nat
deriving DecidableEq, Repr

/-- outcome of one iteration of the `ShapeCast::test` loop: a hit return, a
miss return (`nullopt`), or advancing to the next iteration. -/
inductive CastStepResult where
  | hit (out : ShapeCastOutput)
  | miss
  | advance (st : CastState)
deriving DecidableEq, Repr

/-- one iteration of the `ShapeCast::test` loop body. -/
def ShapeCast.step (input : ShapeCastPairInput) (st : CastState) : CastStepResult :=
  let tr := Distance.computeTrace
    ⟨input.proxyA, input.proxyB, input.transformA, st.transformB, false⟩ st.cache
  let d := tr.result
  let linearSlop := BPP_LINEAR_SLOP
  let tolerance := linearSlop * (1 / 4)
  let proceed := fun (target : ℚ) =>
    let approachSpeed := input.translationB.dot d.normal
    if approachSpeed ≥ 0 then CastStepResult.miss
    else
      let fraction := st.fraction + (target - d.distance) / approachSpeed
      if fraction ≥ input.maxFraction then CastStepResult.miss
      else
        CastStepResult.advance
          ⟨target, fraction,
            { st.transformB with
              point := multiplyAdd input.transformB.point fraction input.translationB },
            tr.cacheOut, st.iteration + 1⟩
  if d.distance < st.target + tolerance then
    if st.iteration = 0 then
      if input.canEncroach ∧ d.distance > linearSlop * 2 then
        proceed (d.distance - linearSlop)
      else
        let pointA := multiplyAdd d.pointA input.proxyA.radius d.normal
        let pointB := multiplyAdd d.pointB (-input.proxyB.radius) d.normal
        CastStepResult.hit ⟨Vec2.zero, (1 / 2 : ℚ) * (pointA + pointB), 0⟩
    else
      CastStepResult.hit
        ⟨d.normal, multiplyAdd d.pointA input.proxyA.radius d.normal, st.fraction⟩
  else proceed st.target

/-- the `ShapeCast::test` sweep loop (fuel =
`BPP_COLLISION_DISTANCE_MAX_ITERATIONS`); also counts the `Distance`
iterations performed; exhaustion is a miss. -/
def ShapeCast.loop (input : ShapeCastPairInput) :
    Nat → CastState → Option ShapeCastOutput × Nat
  | 0, _ => (none, 0)
  | fuel + 1, st =>
    match ShapeCast.step input st with
    | .hit out => (some out, 1)
    | .miss => (none, 1)
    | .advance st1 =>
      let r := ShapeCast.loop input fuel st1
      (r.1, r.2 + 1)

/-- `ShapeCast::test(ShapeCastPairInput)`. -/
def ShapeCast.test (input : ShapeCastPairInput) : Option ShapeCastOutput :=
  if input.translationB.lengthSquared < floatEpsilon then
    let d := Distance.compute
      ⟨input.proxyA, input.proxyB, input.transformA, input.transformB, true⟩
    if d.distance ≤ 0 then
      some ⟨Vec2.zero, (1 / 2 : ℚ) * (d.pointA + d.pointB), 0⟩
    else none
  else
    let target := max BPP_LINEAR_SLOP
      (input.proxyA.radius + input.proxyB.radius - BPP_LINEAR_SLOP)
    (ShapeCast.loop input BPP_COLLISION_DISTANCE_MAX_ITERATIONS
      ⟨target, 0, input.transformB, SimplexCache.zero, 0⟩).1

/-- `Sweep`: rigid motion over normalized time `[0,1]`. -/
structure Sweep where
  localCenter : Vec2
  c1 : Vec2
  c2 : Vec2
  q1 : Rotation
  q2 : Rotation
deriving DecidableEq, Repr

/-- `Sweep::transform_of(t)`: nlerp the rotation, lerp the center, shift by
the rotated local center. -/
def Sweep.transformOf (s : Sweep) (t : ℚ) : Transform :=
  let q : Rotation := ⟨(1 - t) * s.q1.cos + t * s.q2.cos, (1 - t) * s.q1.sin + t * s.q2.sin⟩
  let qn := q.normalize
  let p := (1 - t) * s.c1 + t * s.c2 - qn.rotate s.localCenter
  ⟨p, qn⟩

/-- `TOIInput`. -/
structure TOIInput where
  proxyA : ShapeProxy
  proxyB : ShapeProxy
  sweepA : Sweep
  sweepB : Sweep
  maxFraction : ℚ
deriving DecidableEq, Repr

/-- `TOIState`. -/
inductive TOIState where
  | failed
  | overlapped
  | hit
  | separated
deriving DecidableEq, Repr

/-- `TOI` (the output of `TOI::compute`). -/
structure TOIResult where
  state : TOIState
  point : Vec2
  normal : Vec2
  fraction : ℚ
  separation : ℚ
deriving DecidableEq, Repr

/-- `ShapeProxy::invalid_index` (`uint8` max). -/
def invalidIndex : Nat := 255

/-- `SeparationSolver::AxisType`. -/
inductive AxisType where
  | points
  | faceA
  | faceB
deriving DecidableEq, Repr

/-- the `SeparationSolver` helper of `TOI::compute`. -/
structure SeparationSolver where
  proxyA : ShapeProxy
  proxyB : ShapeProxy
  sweepA : Sweep
  sweepB : Sweep
  localWitness : Vec2
  localAxis : Vec2
  axisType : AxisType
  cachedIndexA : Nat
  cachedIndexB : Nat
  flipAxis : Bool
deriving DecidableEq, Repr

/-- `SeparationSolver` constructor + `initialize_from_cache`: classify the
separating axis from the shape of the cached simplex at time `t`. -/
def SeparationSolver.create (cache : SimplexCache) (pa pb : ShapeProxy)
    (sa sb : Sweep) (t : ℚ) : SeparationSolver :=
  let ta := sa.transformOf t
  let tb := sb.transformOf t
  if cache.type = .point then
    let ia := cache.indexA0
    let ib := cache.indexB0
    let axis := (tb.transform (pb.point ib) - ta.transform (pa.point ia)).normalize
    ⟨pa, pb, sa, sb, Vec2.zero, axis, .points, ia, ib, false⟩
  else if cache.indexA0 = cache.indexA1 then
    let ia := cache.indexA0
    let b1 := pb.point cache.indexB0
    let b2 := pb.point cache.indexB1
    let edge := b2 - b1
    let axis := (edge.crossScalar 1).normalize
    let witness := (1 / 2 : ℚ) * (b1 + b2)
    let sign := (ta.transform (pa.point ia) - tb.transform witness).dot
      (tb.rotation.rotate axis)
    ⟨pa, pb, sa, sb, witness, axis, .faceB, ia, invalidIndex, decide (sign < 0)⟩
  else
    let ib := cache.indexB0
    let a1 := pa.point cache.indexA0
    let a2 := pa.point cache.indexA1
    let edge := a2 - a1
    let axis := (edge.crossScalar 1).normalize
    let witness := (1 / 2 : ℚ) * (a1 + a2)
    let sign := (tb.transform (pb.point ib) - ta.transform witness).dot
      (ta.rotation.rotate axis)
    ⟨pa, pb, sa, sb, witness, axis, .faceA, invalidIndex, ib, decide (sign < 0)⟩

/-- `SeparationSolver::evaluate_with_indices`. -/
def SeparationSolver.evaluateWithIndices (sv : SeparationSolver)
    (ta tb : Transform) (normal : Vec2) (ia ib : Nat) : ℚ :=
  match sv.axisType with
  | .points =>
    (tb.transform (sv.proxyB.point ib) - ta.transform (sv.proxyA.point ia)).dot normal
  | .faceA =>
    (tb.transform (sv.proxyB.point ib) - ta.transform sv.localWitness).dot normal
  | .faceB =>
    (ta.transform (sv.proxyA.point ia) - tb.transform sv.localWitness).dot normal

/-- `SeparationSolver::evaluate_with_transform`. -/
def SeparationSolver.evaluateWithTransform (sv : SeparationSolver)
    (ta tb : Transform) : ℚ :=
  match sv.axisType with
  | .points =>
    let normal := ta.rotation.rotate sv.localAxis
    sv.evaluateWithIndices ta tb normal sv.cachedIndexA sv.cachedIndexB
  | .faceA =>
    let normal := ta.rotation.rotate (if sv.flipAxis then -sv.localAxis else sv.localAxis)
    sv.evaluateWithIndices ta tb normal invalidIndex sv.cachedIndexB
  | .faceB =>
    let normal := tb.rotation.rotate (if sv.flipAxis then -sv.localAxis else sv.localAxis)
    sv.evaluateWithIndices ta tb normal sv.cachedIndexA invalidIndex

/-- `SeparationSolver::evaluate(t)`. -/
def SeparationSolver.evaluate (sv : SeparationSolver) (t : ℚ) : ℚ :=
  sv.evaluateWithTransform (sv.sweepA.transformOf t) (sv.sweepB.transformOf t)

/-- `SeparationSolver::find_min_separation(t)`: updates the cached witness
indices and returns the minimum separation. -/
def SeparationSolver.findMinSeparation (sv : SeparationSolver) (t : ℚ) :
    SeparationSolver × ℚ :=
  let ta := sv.sweepA.transformOf t
  let tb := sv.sweepB.transformOf t
  match sv.axisType with
  | .points =>
    let axisWorld := ta.rotation.rotate sv.localAxis
    let axisALocal := ta.rotation.invRotate axisWorld
    let axisBLocal := tb.rotation.invRotate (-axisWorld)
    let ia := sv.proxyA.findSupport axisALocal
    let ib := sv.proxyB.findSupport axisBLocal
    let sv1 := { sv with cachedIndexA := ia, cachedIndexB := ib }
    (sv1, sv1.evaluateWithIndices ta tb axisWorld ia ib)
  | .faceA =>
    let normalWorld := ta.rotation.rotate sv.localAxis
    let searchDir := tb.rotation.invRotate (-normalWorld)
    let ib := sv.proxyB.findSupport searchDir
    let sv1 := { sv with cachedIndexA := invalidIndex, cachedIndexB := ib }
    (sv1, sv1.evaluateWithIndices ta tb normalWorld invalidIndex ib)
  | .faceB =>
    let normalWorld := tb.rotation.rotate sv.localAxis
    let searchDir := ta.rotation.invRotate (-normalWorld)
    let ia := sv.proxyA.findSupport searchDir
    let sv1 := { sv with cachedIndexA := ia, cachedIndexB := invalidIndex }
    (sv1, sv1.evaluateWithIndices ta tb normalWorld ia invalidIndex)

/-- `SeparationSolver::world_normal(t)`. -/
def SeparationSolver.worldNormal (sv : SeparationSolver) (t : ℚ) : Vec2 :=
  let ta := sv.sweepA.transformOf t
  let tb := sv.sweepB.transformOf t
  match sv.axisType with
  | .points => ta.rotation.rotate sv.localAxis
  | .faceA => ta.rotation.rotate (if sv.flipAxis then -sv.localAxis else sv.localAxis)
  | .faceB => tb.rotation.rotate (if sv.flipAxis then -sv.localAxis else sv.localAxis)

/-- `SeparationSolver::witness_points(t)`. -/
def SeparationSolver.witnessPoints (sv : SeparationSolver) (t : ℚ) : Vec2 × Vec2 :=
  let lp : Vec2 × Vec2 :=
    match sv.axisType with
    | .points =>
      (sv.proxyA.point (if sv.cachedIndexA = invalidIndex then 0 else sv.cachedIndexA),
        sv.proxyB.point (if sv.cachedIndexB = invalidIndex then 0 else sv.cachedIndexB))
    | .faceA =>
      (sv.localWitness,
        sv.proxyB.point (if sv.cachedIndexB = invalidIndex then 0 else sv.cachedIndexB))
    | .faceB =>
      (sv.proxyA.point (if sv.cachedIndexA = invalidIndex then 0 else sv.cachedIndexA),
        sv.localWitness)
  (( sv.sweepA.transformOf t).transform lp.1, (sv.sweepB.transformOf t).transform lp.2)

/-- the `find_root_bracketed` lambda of `TOI::compute`: alternating
bisection/secant root search; also counts the iterations performed
(fuel = 50). -/
def findRootLoop (sv : SeparationSolver) (target tolerance : ℚ) :
    Nat → Nat → ℚ → ℚ → ℚ → ℚ → ℚ × Nat
  | 0, _, a, _, b, _ => ((a + b) / 2, 0)
  | fuel + 1, i, a, fa, b, fb =>
    let t := if i % 2 = 1 then a + (target - fa) * (b - a) / (fb - fa)
      else (a + b) / 2
    let ft := sv.evaluate t - target
    if |ft| < tolerance then (t, 1)
    else
      let next : ℚ × ℚ × ℚ × ℚ := if ft > 0 then (t, ft, b, fb) else (a, fa, t, ft)
      if |next.2.2.1 - next.1| < tolerance then ((next.1 + next.2.2.1) / 2, 1)
      else
        let r := findRootLoop sv target tolerance fuel (i + 1)
          next.1 next.2.1 next.2.2.1 next.2.2.2
        (r.1, r.2 + 1)

/-- `find_root_bracketed(a, fa, b, fb)` with its 50-iteration budget. -/
def findRootBracketed (sv : SeparationSolver) (target tolerance a fa b fb : ℚ) : ℚ :=
  (findRootLoop sv target tolerance 50 0 a fa b fb).1

/-- outcome of the push-back inner loop of `TOI::compute`: either an early
`return`, or falling out of the loop with the updated state. -/
inductive PushBackOutcome where
  | ret (r : TOIResult)
  | done (solver : SeparationSolver) (t1 t2 : ℚ) (foundHit : Bool)
deriving Repr

/-- the push-back inner loop of `TOI::compute` (fuel =
`BPP_MAX_POLYGON_VERTICES`). -/
def pushBackLoop (target tolerance : ℚ) :
    Nat → SeparationSolver → ℚ → ℚ → PushBackOutcome
  | 0, sv, t1, t2 => .done sv t1 t2 false
  | fuel + 1, sv, t1, t2 =>
    let fm := sv.findMinSeparation t2
    let sv1 := fm.1
    let s2 := fm.2
    if s2 > target + tolerance then .done sv1 t2 t2 false
    else if s2 > target - tolerance then .done sv1 t2 t2 true
    else
      let s1 := sv1.evaluate t1
      if s1 < target - tolerance then
        let wp := sv1.witnessPoints t1
        .ret ⟨.hit, (1 / 2 : ℚ) * (wp.1 + wp.2), sv1.worldNormal t1, t1, s1⟩
      else if s1 ≤ target + tolerance then
        let wp := sv1.witnessPoints t1
        .ret ⟨.hit, (1 / 2 : ℚ) * (wp.1 + wp.2), sv1.worldNormal t1, t1, s1⟩
      else
        let root0 := findRootBracketed sv1 target tolerance t1 s1 t2 s2
        let root := if root0 < t1 ∨ root0 > t2 then (t1 + t2) / 2 else root0
        pushBackLoop target tolerance fuel sv1 t1 root

/-- the outer conservative-advancement loop of `TOI::compute` (fuel =
`BPP_COLLISION_DISTANCE_MAX_ITERATIONS`); also counts the outer iterations
performed; exhaustion returns `FAILED`. -/
def toiLoop (input : TOIInput) (target tolerance : ℚ) :
    Nat → ℚ → SimplexCache → TOIResult × Nat
  | 0, t1, _ => (⟨.failed, Vec2.zero, Vec2.zero, t1, 0⟩, 0)
  | fuel + 1, t1, cache =>
    let ta := input.sweepA.transformOf t1
    let tb := input.sweepB.transformOf t1
    let tr := Distance.computeTrace ⟨input.proxyA, input.proxyB, ta, tb, false⟩ cache
    let d := tr.result
    if d.distance ≤ 0 then
      let pointA := multiplyAdd d.pointA input.proxyA.radius d.normal
      let pointB := multiplySub d.pointB input.proxyB.radius d.normal
      let point := (1 / 2 : ℚ) * (pointA + pointB)
      if t1 = 0 then
        (⟨.overlapped, point, Vec2.zero, t1, d.distance⟩, 1)
      else
        (⟨.hit, point, d.normal, t1, d.distance⟩, 1)
    else if d.distance ≤ target + tolerance then
      let pointA := multiplyAdd d.pointA input.proxyA.radius d.normal
      let pointB := multiplySub d.pointB input.proxyB.radius d.normal
      let point := (1 / 2 : ℚ) * (pointA + pointB)
      (⟨.hit, point, d.normal, t1, d.distance⟩, 1)
    else
      let solver := SeparationSolver.create tr.cacheOut input.proxyA input.proxyB
        input.sweepA input.sweepB t1
      match pushBackLoop target tolerance BPP_MAX_POLYGON_VERTICES solver t1
        input.maxFraction with
      | .ret r => (r, 1)
      | .done solver1 t1n t2n foundHit =>
        if ¬foundHit ∧ t2n ≥ input.maxFraction then
          (⟨.separated, Vec2.zero, Vec2.zero, input.maxFraction,
            solver1.evaluate input.maxFraction⟩, 1)
        else if t1n ≥ input.maxFraction then
          (⟨.separated, Vec2.zero, Vec2.zero, input.maxFraction,
            solver1.evaluate input.maxFraction⟩, 1)
        else
          let r := toiLoop input target tolerance fuel t1n tr.cacheOut
          (r.1, r.2 + 1)

/-- `TOI::compute`. -/
def TOI.compute (input : TOIInput) : TOIResult :=
  if input.sweepA.c1 = input.sweepA.c2 ∧ input.sweepA.q1 = input.sweepA.q2 ∧
      input.sweepB.c1 = input.sweepB.c2 ∧ input.sweepB.q1 = input.sweepB.q2 then
    let d := Distance.compute
      ⟨input.proxyA, input.proxyB, input.sweepA.transformOf 0,
        input.sweepB.transformOf 0, true⟩
    if d.distance ≤ 0 then
      ⟨.overlapped, (1 / 2 : ℚ) * (d.pointA + d.pointB), Vec2.zero, 0, d.distance⟩
    else
      ⟨.separated, Vec2.zero, Vec2.zero, input.maxFraction, d.distance⟩
  else
    let target := max BPP_LINEAR_SLOP
      (input.proxyA.radius + input.proxyB.radius - BPP_LINEAR_SLOP)
    let tolerance := BPP_LINEAR_SLOP * (1 / 4)
    (toiLoop input target tolerance BPP_COLLISION_DISTANCE_MAX_ITERATIONS 0
      SimplexCache.zero).1

/-- `Circle` shape (named `CircleShape` here: Mathlib already has `Circle`). -/
structure CircleShape where
  center : Vec2
  radius : ℚ
deriving DecidableEq, Repr

/-- `RayCastInput`. -/
structure RayCastInput where
  origin : Vec2
  translation : Vec2
  maxFraction : ℚ
deriving DecidableEq, Repr

/-- `CastOutput`. -/
structure CastOutput where
  normal : Vec2
  point : Vec2
  fraction : ℚ
  iterations : Nat
  hit : Bool
deriving DecidableEq, Repr

/-- `cast_missed()`. -/
def castMissed : CastOutput := ⟨Vec2.zero, Vec2.zero, 0, 0, false⟩

/-- `CastOutput::test(RayCastInput, Circle)`: closed-form ray/circle
intersection. -/
def CastOutput.testCircle (input : RayCastInput) (circle : CircleShape) : CastOutput :=
  let s := input.origin - circle.center
  let r := circle.radius
  let r2 := r * r
  let dl := input.translation.normalizeLen
  let d := dl.1
  let length := dl.2
  if length = 0 then
    if s.lengthSquared < r2 then ⟨Vec2.zero, input.origin, 0, 0, true⟩
    else castMissed
  else
    let t := -(s.dot d)
    let c := multiplyAdd s t d
    let c2 := c.dot c
    if c2 > r2 then castMissed
    else
      let h := Rat.sqrt (r2 - c2)
      let fraction := t - h
      if fraction < 0 ∨ input.maxFraction * length < fraction then
        if s.lengthSquared < r2 then ⟨Vec2.zero, input.origin, 0, 0, true⟩
        else castMissed
      else
        let hitPoint := multiplyAdd s fraction d
        let normal := hitPoint.normalize
        ⟨normal, multiplyAdd circle.center circle.radius normal, fraction / length, 0, true⟩

/-- `Hull` (intermediate convex hull; `count` is the list length). -/
structure Hull where
  points : List Vec2
deriving DecidableEq, Repr

/-- `Hull::count`. -/
def Hull.count (h : Hull) : Nat := h.points.length

/-- the scan of `Hull::recurse_create`: find the first point of strictly
maximal signed distance (starting from the first point), and collect the
points of positive distance in order. -/
def bestRightLoop (p1 e : Vec2) : List Vec2 → Vec2 → ℚ → Vec2 × ℚ
  | [], best, bestD => (best, bestD)
  | p :: rest, best, bestD =>
    let d := (p - p1).cross e
    if d > bestD then bestRightLoop p1 e rest p d
    else bestRightLoop p1 e rest best bestD

/-- `Hull::recurse_create(p1, p2, points)`; the C++ recursion depth is
bounded by the number of candidate points, so the fuel is set to
`BPP_MAX_POLYGON_VERTICES` by the caller. -/
def Hull.recurseCreate : Nat → Vec2 → Vec2 → List Vec2 → Hull
  | 0, _, _, _ => ⟨[]⟩
  | fuel + 1, p1, p2, points =>
    match points with
    | [] => ⟨[]⟩
    | p0 :: rest =>
      let linearSlop := BPP_LINEAR_SLOP
      let e := (p2 - p1).normalize
      let bd := bestRightLoop p1 e rest p0 ((p0 - p1).cross e)
      let bestPoint := bd.1
      let bestDistance := bd.2
      let rightPoints := points.filter fun p => decide ((p - p1).cross e > 0)
      if bestDistance < linearSlop * 2 then ⟨[]⟩
      else
        let h1 := Hull.recurseCreate fuel p1 bestPoint rightPoints
        let h2 := Hull.recurseCreate fuel bestPoint p2 rightPoints
        ⟨h1.points ++ [bestPoint] ++ h2.points⟩

/-- the aggressive welding pass of `Hull::create`: a point is kept iff no
earlier point of the ORIGINAL input lies within the weld tolerance. -/
def weldLoop (tolerance2 : ℚ) : List Vec2 → List Vec2 → List Vec2
  | _, [] => []
  | seen, p :: rest =>
    let unique := seen.all fun prev => decide (¬ p.distanceSquared prev < tolerance2)
    (if unique then [p] else []) ++ weldLoop tolerance2 (seen ++ [p]) rest

/-- `std::ranges::max_element` scan with projection
`base.distance_squared`: index of the first element of maximal squared
distance from `base`. -/
def maxElementLoop (base : Vec2) : List Vec2 → Nat → Nat → ℚ → Nat
  | [], _, bestIdx, _ => bestIdx
  | p :: rest, i, bestIdx, bestVal =>
    if base.distanceSquared p > bestVal then maxElementLoop base rest (i + 1) i
      (base.distanceSquared p)
    else maxElementLoop base rest (i + 1) bestIdx bestVal

/-- `find_furthest_point_index` of `Hull::create`. -/
def findFurthestPointIndex (points : List Vec2) (base : Vec2) : Nat :=
  match points with
  | [] => 0
  | p :: rest => maxElementLoop base rest 1 0 (base.distanceSquared p)

/-- removal by swapping in the last element and shrinking
(`points[i] = points[count-1]; count -= 1`). -/
def removeSwap (l : List Vec2) (i : Nat) : List Vec2 :=
  (l.set i (l.getLastD Vec2.zero)).dropLast

/-- one scan of the merge-collinear phase of `Hull::create`: the index of
the midpoint of the first collinear triple, if any. -/
def findCollinearLoop (l : List Vec2) : Nat → Nat → Option Nat
  | _, 0 => none
  | i1, remaining + 1 =>
    let n := l.length
    let s1 := l.getD (i1 % n) Vec2.zero
    let s2 := l.getD ((i1 + 1) % n) Vec2.zero
    let s3 := l.getD ((i1 + 2) % n) Vec2.zero
    let r := (s3 - s1).normalize
    if (s2 - s1).cross r ≤ BPP_LINEAR_SLOP * 2 then some ((i1 + 1) % n)
    else findCollinearLoop l (i1 + 1) remaining

/-- the merge-collinear outer loop of `Hull::create`; each pass removes one
point, so the list length bounds the passes. -/
def mergeCollinear : Nat → List Vec2 → List Vec2
  | 0, l => l
  | fuel + 1, l =>
    if l.length > 2 then
      match findCollinearLoop l 0 l.length with
      | some i2 => mergeCollinear fuel (l.eraseIdx i2)
      | none => l
    else l

/-- the tail of `Hull::create`: build the two sub-hulls, return empty when
either side is (all collinear), otherwise stitch and merge collinear
triples. -/
def Hull.stitch (p1 p2 : Vec2) (rightPoints leftPoints : List Vec2) : Hull :=
  let h1 := Hull.recurseCreate BPP_MAX_POLYGON_VERTICES p1 p2 rightPoints
  let h2 := Hull.recurseCreate BPP_MAX_POLYGON_VERTICES p2 p1 leftPoints
  if h1.count = 0 ∨ h2.count = 0 then ⟨[]⟩
  else
    let stitched := p1 :: (h1.points ++ [p2] ++ h2.points)
    let merged := mergeCollinear stitched.length stitched
    if merged.length < 3 then ⟨[]⟩ else ⟨merged⟩

/-- the middle of `Hull::create` after welding: pick the extreme points
`p1`, `p2`, split the rest into right/left of the line `p1-p2` with the
`2·linear_slop` deadband, and stitch. -/
def Hull.fromWelded (computed : List Vec2) (center : Vec2) : Hull :=
  let linearSlop := BPP_LINEAR_SLOP
  let i1 := findFurthestPointIndex computed center
  let p1 := computed.getD i1 Vec2.zero
  let c1 := removeSwap computed i1
  let i2 := findFurthestPointIndex c1 p1
  let p2 := c1.getD i2 Vec2.zero
  let c2 := removeSwap c1 i2
  let e := (p2 - p1).normalize
  let rightPoints := c2.filter fun p => decide ((p - p1).cross e ≥ linearSlop * 2)
  let leftPoints := c2.filter fun p => decide ((p - p1).cross e ≤ -(linearSlop * 2))
  Hull.stitch p1 p2 rightPoints leftPoints

/-- `Hull::create(points)` (quickhull with welding, slop deadbands and
collinear merging; all degeneracies yield an empty hull). -/
def Hull.create (points : List Vec2) : Hull :=
  if points.length < 3 ∨ points.length > BPP_MAX_POLYGON_VERTICES then ⟨[]⟩
  else
    let linearSlop := BPP_LINEAR_SLOP
    let tolerance2 := linearSlop * linearSlop * 16
    let aabb := points.foldl AABB.combinationMaxPoint
      ⟨⟨floatMax, floatMax⟩, ⟨-floatMax, -floatMax⟩⟩
    let computed := weldLoop tolerance2 [] points
    if computed.length < 3 then ⟨[]⟩
    else Hull.fromWelded computed aabb.center





/-! ### Helper lemmas -/

@[simp] theorem Vec2.add_x (a b : Vec2) : (a + b).x = a.x + b.x := rfl

@[simp] theorem Vec2.add_y (a b : Vec2) : (a + b).y = a.y + b.y := rfl

@[simp] theorem Vec2.sub_x (a b : Vec2) : (a - b).x = a.x - b.x := rfl

@[simp] theorem Vec2.sub_y (a b : Vec2) : (a - b).y = a.y - b.y := rfl

@[simp] theorem Vec2.neg_x (a : Vec2) : (-a).x = -a.x := rfl

@[simp] theorem Vec2.neg_y (a : Vec2) : (-a).y = -a.y := rfl

@[simp] theorem Vec2.smul_x (s : ℚ) (a : Vec2) : (s * a).x = s * a.x := rfl

@[simp] theorem Vec2.smul_y (s : ℚ) (a : Vec2) : (s * a).y = s * a.y := rfl

@[simp] theorem SimplexType.point_eq_triangle_iff :
    (SimplexType.point = SimplexType.triangle) ↔ False :=
  ⟨fun h => SimplexType.noConfusion h, False.elim⟩

@[simp] theorem SimplexType.lineSegment_eq_triangle_iff :
    (SimplexType.lineSegment = SimplexType.triangle) ↔ False :=
  ⟨fun h => SimplexType.noConfusion h, False.elim⟩

@[simp] theorem SimplexCacheType.uninitialized_eq_point_iff :
    (SimplexCacheType.uninitialized = SimplexCacheType.point) ↔ False :=
  ⟨fun h => SimplexCacheType.noConfusion h, False.elim⟩

@[simp] theorem SimplexCacheType.lineSegment_eq_point_iff :
    (SimplexCacheType.lineSegment = SimplexCacheType.point) ↔ False :=
  ⟨fun h => SimplexCacheType.noConfusion h, False.elim⟩

@[simp] theorem SimplexCacheType.point_eq_point_iff :
    (SimplexCacheType.point = SimplexCacheType.point) ↔ True :=
  ⟨fun _ => trivial, fun _ => rfl⟩

@[simp] theorem Vec2.mk_add_mk (a b c d : ℚ) :
    ((⟨a, b⟩ : Vec2) + ⟨c, d⟩) = ⟨a + c, b + d⟩ := rfl

@[simp] theorem Vec2.mk_sub_mk (a b c d : ℚ) :
    ((⟨a, b⟩ : Vec2) - ⟨c, d⟩) = ⟨a - c, b - d⟩ := rfl

@[simp] theorem Vec2.neg_mk (a b : ℚ) : (-(⟨a, b⟩ : Vec2)) = ⟨-a, -b⟩ := rfl

@[simp] theorem Vec2.smul_mk (s a b : ℚ) :
    (s * (⟨a, b⟩ : Vec2)) = (⟨s * a, s * b⟩ : Vec2) := rfl

@[simp] theorem Vec2.dot_mk (a b c d : ℚ) :
    Vec2.dot ⟨a, b⟩ ⟨c, d⟩ = a * c + b * d := rfl

@[simp] theorem Vec2.cross_mk (a b c d : ℚ) :
    Vec2.cross ⟨a, b⟩ ⟨c, d⟩ = a * d - b * c := rfl

@[simp] theorem Vec2.zero_def : Vec2.zero = ⟨0, 0⟩ := rfl

theorem Vec2.eq_iff (a b : Vec2) : a = b ↔ a.x = b.x ∧ a.y = b.y := by
  constructor
  · intro h
    exact ⟨congrArg Vec2.x h, congrArg Vec2.y h⟩
  · obtain ⟨ax, ay⟩ := a
    obtain ⟨bx, by'⟩ := b
    rintro ⟨h1, h2⟩
    simp only at h1 h2
    rw [h1, h2]

theorem ratSqrt_of_sq (q : ℚ) (h : 0 ≤ q) : Rat.sqrt (q * q) = q := by
  rw [Rat.sqrt_eq, abs_of_nonneg h]

theorem ratSqrt_zero : Rat.sqrt 0 = 0 := by
  have h := ratSqrt_of_sq 0 le_rfl
  rw [mul_zero] at h
  exact h

theorem ratSqrt_one : Rat.sqrt 1 = 1 := by
  have h := ratSqrt_of_sq 1 zero_le_one
  rw [mul_one] at h
  exact h

theorem ratSqrt_25 : Rat.sqrt 25 = 5 := by
  rw [show (25 : ℚ) = 5 * 5 by norm_num]
  exact ratSqrt_of_sq 5 (by norm_num)

theorem ratSqrt_64 : Rat.sqrt 64 = 8 := by
  rw [show (64 : ℚ) = 8 * 8 by norm_num]
  exact ratSqrt_of_sq 8 (by norm_num)

/-! ### Claim theorems -/

/-- C8: transform application round-trips with its inverse: for every valid
transform (unit rotation) and every point, `inv_transform (transform p) = p`
exactly in exact (real) arithmetic. -/
theorem transform_round_trip (t : Transform) (p : Vec2)
    (h : t.rotation.cos * t.rotation.cos + t.rotation.sin * t.rotation.sin = 1) :
    t.invTransform (t.transform p) = p := by
  obtain ⟨⟨tx, ty⟩, ⟨c, s⟩⟩ := t
  obtain ⟨x, y⟩ := p
  simp only [Transform.invTransform, Transform.transform, Rotation.invRotate,
    Rotation.inv, Rotation.rotate, Vec2.add_x, Vec2.add_y, Vec2.sub_x, Vec2.sub_y,
    Vec2.mk.injEq] at *
  constructor
  · linear_combination x * h
  · linear_combination y * h

/-- C8 witness: a large translation with a non-trivial exactly-unit
rotation round-trips exactly. -/
theorem transform_round_trip_witness :
    (⟨⟨10000, -10000⟩, ⟨3 / 5, 4 / 5⟩⟩ : Transform).invTransform
      ((⟨⟨10000, -10000⟩, ⟨3 / 5, 4 / 5⟩⟩ : Transform).transform ⟨7, -2⟩) = ⟨7, -2⟩ :=
  transform_round_trip _ _ (by norm_num)

/-- C2 (code bug): at the failing input — capsule with distinct centers
`(0,0)`, `(1,0)` and radius 2, query point `(0, 3/2)` — `Capsule::in`
returns `false`, although the squared distance from the point to the
closest point `(0,0)` of the core segment is `9/4 ≤ radius² = 4`, so the
claimed containment test says the point is inside.  The segment branch of
the source compares the squared distance against `radius` instead of the
`r2 = radius * radius` it computes, contradicting its own comment. -/
theorem capsule_in_compares_radius_not_radius_squared :
    Capsule.isIn ⟨⟨0, 0⟩, ⟨1, 0⟩, 2⟩ ⟨0, 3 / 2⟩ = false ∧
      Vec2.distanceSquared ⟨0, 3 / 2⟩ ⟨0, 0⟩ ≤ 2 * 2 := by
  constructor
  · norm_num [Capsule.isIn, Vec2.distanceSquared, Vec2.lengthSquared, Vec2.dot,
      clamp, Vec2.zero]
  · norm_num [Vec2.distanceSquared, Vec2.lengthSquared, Vec2.dot]

/-- C6 counterexample: at a concrete non-trivial input, the point-cloud
`AABB::compute` stub returns the default zero AABB, but that AABB satisfies
`AABB::valid()` (its extent is zero, not negative, and its coordinates are
finite), so the claim's "that is invalid" is false. -/
theorem aabb_compute_points_stub_is_valid :
    AABB.computePoints [⟨1, 2⟩, ⟨-3, 4⟩] 5 = ⟨Vec2.zero, Vec2.zero⟩ ∧
      (AABB.computePoints [⟨1, 2⟩, ⟨-3, 4⟩] 5).valid = true := by
  constructor
  · rfl
  · norm_num [AABB.computePoints, AABB.valid, Vec2.zero]

/-- C6 (amended): the point-cloud `AABB::compute` overload ignores its
inputs and returns the default-constructed zero AABB; that AABB is
degenerate but satisfies `AABB::valid()`. -/
theorem aabb_compute_points_is_todo_stub (points : List Vec2) (radius : ℚ) :
    AABB.computePoints points radius = ⟨Vec2.zero, Vec2.zero⟩ ∧
      (AABB.computePoints points radius).valid = true := by
  constructor
  · rfl
  · norm_num [AABB.computePoints, AABB.valid, Vec2.zero]

/-- C9: the closed-form ray/circle cast is exact on the known
configuration: ray from `(-4,0)` with translation `(8,0)` and max fraction
1 against the circle of center `(1,0)` and radius 1 hits at fraction `1/2`
with point `(0,0)` and normal `(-1,0)`. -/
theorem ray_cast_circle_known_configuration :
    CastOutput.testCircle ⟨⟨-4, 0⟩, ⟨8, 0⟩, 1⟩ ⟨⟨1, 0⟩, 1⟩ =
      ⟨⟨-1, 0⟩, ⟨0, 0⟩, 1 / 2, 0, true⟩ := by
  norm_num [CastOutput.testCircle, Vec2.normalizeLen, Vec2.normalize, Vec2.length,
    Vec2.lengthSquared, Vec2.dot, multiplyAdd, Vec2.zero, floatEpsilon, castMissed,
    ratSqrt_64, ratSqrt_one, Vec2.add_x, Vec2.add_y, Vec2.sub_x, Vec2.sub_y,
    Vec2.smul_x, Vec2.smul_y, Vec2.eq_iff]

set_option maxHeartbeats 1600000 in
/-- C10: whenever `Simplex::solve3` classifies the origin as interior to the
triangle (storing the barycentric weights `d123_i / (d123_1+d123_2+d123_3)`),
the two points returned by `compute_closest_points` for the TRIANGLE case
coincide in exact arithmetic: their difference is the weighted sum of the
Minkowski-difference vertices, which is the origin because those weights are
exactly the barycentric coordinates of the origin. -/
theorem solve3_interior_closest_points_coincide (s : Simplex)
    (h0 : s.v0.w = s.v0.wA - s.v0.wB)
    (h1 : s.v1.w = s.v1.wA - s.v1.wB)
    (h2 : s.v2.w = s.v2.wA - s.v2.wB)
    (ht : s.solve3.1.type = .triangle) :
    s.solve3.1.computeClosestPoints.1 = s.solve3.1.computeClosestPoints.2 := by
  obtain ⟨⟨a0, b0, w0, wt0, ia0, ib0⟩, ⟨a1, b1, w1, wt1, ia1, ib1⟩,
    ⟨a2, b2, w2, wt2, ia2, ib2⟩, ty⟩ := s
  obtain ⟨a0x, a0y⟩ := a0
  obtain ⟨a1x, a1y⟩ := a1
  obtain ⟨a2x, a2y⟩ := a2
  obtain ⟨b0x, b0y⟩ := b0
  obtain ⟨b1x, b1y⟩ := b1
  obtain ⟨b2x, b2y⟩ := b2
  obtain ⟨w0x, w0y⟩ := w0
  obtain ⟨w1x, w1y⟩ := w1
  obtain ⟨w2x, w2y⟩ := w2
  simp only [Vec2.eq_iff, Vec2.sub_x, Vec2.sub_y] at h0 h1 h2
  obtain ⟨h0x, h0y⟩ := h0
  obtain ⟨h1x, h1y⟩ := h1
  obtain ⟨h2x, h2y⟩ := h2
  subst h0x h0y h1x h1y h2x h2y
  simp only [Simplex.solve3] at ht ⊢
  split_ifs at ht ⊢
  simp only [Simplex.computeClosestPoints, Vec2.eq_iff, Vec2.add_x, Vec2.add_y,
    Vec2.smul_x, Vec2.smul_y, Vec2.sub_x, Vec2.sub_y, Vec2.dot, Vec2.cross]
  constructor <;> ring

/-- C10 witness: a concrete triangle simplex strictly containing the
origin; `solve3` stays a TRIANGLE and the two closest points coincide. -/
theorem solve3_interior_closest_points_coincide_witness :
    (Simplex.solve3 ⟨⟨⟨-1, -1⟩, Vec2.zero, ⟨-1, -1⟩, 0, 0, 0⟩,
        ⟨⟨2, -1⟩, Vec2.zero, ⟨2, -1⟩, 0, 0, 0⟩,
        ⟨⟨0, 2⟩, Vec2.zero, ⟨0, 2⟩, 0, 0, 0⟩, .triangle⟩).1.computeClosestPoints.1 =
      (Simplex.solve3 ⟨⟨⟨-1, -1⟩, Vec2.zero, ⟨-1, -1⟩, 0, 0, 0⟩,
        ⟨⟨2, -1⟩, Vec2.zero, ⟨2, -1⟩, 0, 0, 0⟩,
        ⟨⟨0, 2⟩, Vec2.zero, ⟨0, 2⟩, 0, 0, 0⟩, .triangle⟩).1.computeClosestPoints.2 :=
  solve3_interior_closest_points_coincide _
    (by norm_num [Vec2.eq_iff, Vec2.zero])
    (by norm_num [Vec2.eq_iff, Vec2.zero])
    (by norm_num [Vec2.eq_iff, Vec2.zero])
    (by norm_num [Simplex.solve3, Vec2.dot, Vec2.cross, Vec2.sub_x, Vec2.sub_y,
      Vec2.zero])

theorem distance_finish_cache (input : DistanceInput) (cache : SimplexCache)
    (e : GJKExit) :
    (Distance.finishTrace input cache e).cacheOut =
      if (Distance.finishTrace input cache e).overlapExit then cache
      else (Distance.finishTrace input cache e).exitSimplex.cache := by
  cases h : e.overlap <;> simp [Distance.finishTrace, h]

/-- C1 (amended): `Distance::compute` refreshes the in/out cache from the
final simplex on the normal termination path; on the two overlap exit paths
(triangle containment and near-zero search direction) it returns before the
cache assignment, leaving the caller's cache unchanged. -/
theorem distance_compute_cache_refresh (input : DistanceInput) (cache : SimplexCache) :
    (Distance.computeTrace input cache).cacheOut =
      if (Distance.computeTrace input cache).overlapExit then cache
      else (Distance.computeTrace input cache).exitSimplex.cache := by
  unfold Distance.computeTrace
  exact distance_finish_cache input cache _

/-- C1 counterexample: two coincident single-point proxies at identity
transforms make the very first GJK iteration exit through the near-zero
search-direction overlap return; the cache still holds its initial
UNINITIALIZED state while the simplex at exit is a POINT simplex, so the
cache was not refreshed from the final simplex state. -/
theorem distance_compute_overlap_exit_stale_cache :
    (Distance.computeTrace ⟨⟨[Vec2.zero], 0⟩, ⟨[Vec2.zero], 0⟩, Transform.identity,
        Transform.identity, false⟩ SimplexCache.zero).cacheOut ≠
      (Distance.computeTrace ⟨⟨[Vec2.zero], 0⟩, ⟨[Vec2.zero], 0⟩, Transform.identity,
        Transform.identity, false⟩ SimplexCache.zero).exitSimplex.cache := by
  norm_num [Distance.computeTrace, Distance.finishTrace, gjkLoop, gjkStep,
    Simplex.create, Simplex.cache, Simplex.solve, Simplex.solve1, Save3.write,
    Save3.contains, Save3.zero, SimplexCache.zero, SimplexVertex.zero,
    ShapeProxy.point, Transform.invMultiply, Transform.transform,
    Transform.identity, Rotation.identity, Rotation.invMultiply, Rotation.inv,
    Rotation.multiply, Rotation.rotate, Vec2.zero, Vec2.dot, floatEpsilon,
    BPP_COLLISION_DISTANCE_MAX_ITERATIONS, Vec2.eq_iff]

/-- C4: when both sweeps describe zero motion, `TOI::compute` short-circuits
to a static radius-aware `Distance` query at `t = 0`: distance `≤ 0` yields
OVERLAPPED at fraction 0, otherwise SEPARATED at fraction `max_fraction`. -/
theorem toi_zero_motion_short_circuit (input : TOIInput) (d : DistanceResult)
    (hd : d = Distance.compute ⟨input.proxyA, input.proxyB,
      input.sweepA.transformOf 0, input.sweepB.transformOf 0, true⟩)
    (hac : input.sweepA.c1 = input.sweepA.c2)
    (haq : input.sweepA.q1 = input.sweepA.q2)
    (hbc : input.sweepB.c1 = input.sweepB.c2)
    (hbq : input.sweepB.q1 = input.sweepB.q2) :
    (d.distance ≤ 0 →
      TOI.compute input = ⟨.overlapped, (1 / 2 : ℚ) * (d.pointA + d.pointB),
        Vec2.zero, 0, d.distance⟩) ∧
    (0 < d.distance →
      TOI.compute input = ⟨.separated, Vec2.zero, Vec2.zero, input.maxFraction,
        d.distance⟩) := by
  subst hd
  unfold TOI.compute
  rw [if_pos ⟨hac, haq, hbc, hbq⟩]
  constructor
  · intro h
    rw [if_pos h]
  · intro h
    rw [if_neg (not_le.mpr h)]

/-- C4 witness: two coincident unit circles (single-point proxies with
radius 1) under trivial sweeps overlap, and `TOI::compute` reports
OVERLAPPED at fraction 0. -/
theorem toi_zero_motion_short_circuit_witness :
    TOI.compute ⟨⟨[Vec2.zero], 1⟩, ⟨[Vec2.zero], 1⟩,
        ⟨Vec2.zero, Vec2.zero, Vec2.zero, Rotation.identity, Rotation.identity⟩,
        ⟨Vec2.zero, Vec2.zero, Vec2.zero, Rotation.identity, Rotation.identity⟩, 1⟩ =
      ⟨.overlapped, Vec2.zero, Vec2.zero, 0, 0⟩ := by
  have h := (toi_zero_motion_short_circuit
    ⟨⟨[Vec2.zero], 1⟩, ⟨[Vec2.zero], 1⟩,
      ⟨Vec2.zero, Vec2.zero, Vec2.zero, Rotation.identity, Rotation.identity⟩,
      ⟨Vec2.zero, Vec2.zero, Vec2.zero, Rotation.identity, Rotation.identity⟩, 1⟩
    ⟨Vec2.zero, Vec2.zero, Vec2.zero, 0⟩
    (by norm_num [Distance.compute, Distance.computeTrace, Distance.finishTrace,
      gjkLoop, gjkStep, Simplex.create, Simplex.cache, Simplex.solve,
      Simplex.solve1, Simplex.computeClosestPoints, Save3.write, Save3.contains,
      Save3.zero, SimplexCache.zero, SimplexVertex.zero, ShapeProxy.point,
      Transform.invMultiply, Transform.transform, Transform.identity,
      Rotation.identity, Rotation.invMultiply, Rotation.inv, Rotation.multiply,
      Rotation.rotate, Rotation.normalize, Sweep.transformOf, Vec2.zero, Vec2.dot,
      Vec2.length, Vec2.lengthSquared, floatEpsilon, ratSqrt_one,
      BPP_COLLISION_DISTANCE_MAX_ITERATIONS, Vec2.eq_iff])
    rfl rfl rfl rfl).1 (by norm_num)
  rw [h]
  norm_num [Vec2.eq_iff, Vec2.zero]

/-- C5: `ShapeCast::test` encodes misses as an absent optional and hits as a
present result.  At any iteration of the sweep loop whose distance check
does not produce a hit (`hnonhit`: either the distance is not within
`target + tolerance`, or the first iteration tightens the target because
encroachment is allowed), the effective target is `tgt`; then a
non-negative closing speed returns `nullopt`, an advanced fraction reaching
`max_fraction` returns `nullopt`, exhausting the iteration budget returns
`nullopt`, and a hit step returns a present output. -/
theorem shape_cast_miss_is_nullopt (input : ShapeCastPairInput) (st : CastState)
    (fuel : Nat) (d : DistanceResult)
    (hd : d = (Distance.computeTrace ⟨input.proxyA, input.proxyB, input.transformA,
      st.transformB, false⟩ st.cache).result)
    (tgt : ℚ)
    (htgt : tgt = if d.distance < st.target + BPP_LINEAR_SLOP * (1 / 4) then
      d.distance - BPP_LINEAR_SLOP else st.target)
    (hnonhit : ¬ d.distance < st.target + BPP_LINEAR_SLOP * (1 / 4) ∨
      (st.iteration = 0 ∧ input.canEncroach = true ∧
        d.distance > BPP_LINEAR_SLOP * 2)) :
    ((ShapeCast.loop input 0 st).1 = none) ∧
    (input.translationB.dot d.normal ≥ 0 →
      (ShapeCast.loop input (fuel + 1) st).1 = none) ∧
    (input.translationB.dot d.normal < 0 →
      st.fraction + (tgt - d.distance) / input.translationB.dot d.normal ≥
        input.maxFraction →
      (ShapeCast.loop input (fuel + 1) st).1 = none) ∧
    (∀ out, ShapeCast.step input st = .hit out →
      (ShapeCast.loop input (fuel + 1) st).1 = some out) := by
  subst hd
  refine ⟨rfl, ?_, ?_, ?_⟩
  · intro hspeed
    have hstep : ShapeCast.step input st = .miss := by
      simp only [ShapeCast.step]
      rcases hnonhit with h | ⟨h0, hen, hfar⟩
      · rw [if_neg h, if_pos hspeed]
      · by_cases hlt : (Distance.computeTrace ⟨input.proxyA, input.proxyB,
          input.transformA, st.transformB, false⟩ st.cache).result.distance <
            st.target + BPP_LINEAR_SLOP * (1 / 4)
        · rw [if_pos hlt, if_pos h0, if_pos ⟨hen, hfar⟩, if_pos hspeed]
        · rw [if_neg hlt, if_pos hspeed]
    simp only [ShapeCast.loop]
    rw [hstep]
  · intro hspeed hfrac
    have hstep : ShapeCast.step input st = .miss := by
      simp only [ShapeCast.step]
      rcases hnonhit with h | ⟨h0, hen, hfar⟩
      · rw [if_neg h, if_neg (not_le.mpr hspeed), if_pos]
        rw [htgt, if_neg h] at hfrac
        exact hfrac
      · by_cases hlt : (Distance.computeTrace ⟨input.proxyA, input.proxyB,
          input.transformA, st.transformB, false⟩ st.cache).result.distance <
            st.target + BPP_LINEAR_SLOP * (1 / 4)
        · rw [if_pos hlt, if_pos h0, if_pos ⟨hen, hfar⟩,
            if_neg (not_le.mpr hspeed), if_pos]
          rw [htgt, if_pos hlt] at hfrac
          exact hfrac
        · rw [if_neg hlt, if_neg (not_le.mpr hspeed), if_pos]
          rw [htgt, if_neg hlt] at hfrac
          exact hfrac
    simp only [ShapeCast.loop]
    rw [hstep]
  · intro out hstep
    simp only [ShapeCast.loop]
    rw [hstep]

/-- C5 witness: point proxies 5 apart with the cast translation pointing
away from the target; the closing speed is non-negative, so the cast over
the full 20-iteration budget returns `nullopt`, as does the exhausted
budget. -/
theorem shape_cast_miss_is_nullopt_witness :
    (ShapeCast.loop ⟨⟨[Vec2.zero], 0⟩, ⟨[⟨5, 0⟩], 0⟩, Transform.identity,
        Transform.identity, ⟨1, 0⟩, 1, false⟩ (19 + 1)
      ⟨BPP_LINEAR_SLOP, 0, Transform.identity, SimplexCache.zero, 0⟩).1 = none := by
  refine (shape_cast_miss_is_nullopt _ _ 19 ⟨⟨0, 0⟩, ⟨5, 0⟩, ⟨1, 0⟩, 5⟩ ?_
    BPP_LINEAR_SLOP ?_ ?_).2.1 ?_
  · norm_num [Distance.computeTrace, Distance.finishTrace, gjkLoop, gjkStep,
      Simplex.create, Simplex.cache, Simplex.solve, Simplex.solve1,
      Simplex.computeClosestPoints, Save3.write, Save3.contains, Save3.zero,
      SimplexCache.zero, SimplexVertex.zero, ShapeProxy.point,
      ShapeProxy.findSupport, findSupportLoop, Transform.invMultiply,
      Transform.transform, Transform.identity, Rotation.identity,
      Rotation.invMultiply, Rotation.inv, Rotation.multiply, Rotation.rotate,
      Vec2.zero, Vec2.dot, Vec2.length, Vec2.lengthSquared, Vec2.distance,
      Vec2.normalize, Vec2.normalizeLen, floatEpsilon, ratSqrt_25,
      BPP_COLLISION_DISTANCE_MAX_ITERATIONS, Vec2.eq_iff]
  · norm_num [BPP_LINEAR_SLOP]
  · left
    norm_num [BPP_LINEAR_SLOP]
  · norm_num [Vec2.dot]

theorem recurseCreate_nil (fuel : Nat) (p1 p2 : Vec2) :
    Hull.recurseCreate fuel p1 p2 [] = ⟨[]⟩ := by
  cases fuel <;> rfl

theorem stitch_right_nil (p1 p2 : Vec2) (left : List Vec2) :
    Hull.stitch p1 p2 [] left = ⟨[]⟩ := by
  simp [Hull.stitch, recurseCreate_nil, Hull.count]

theorem weldLoop_subset (tolerance2 : ℚ) :
    ∀ (seen rest : List Vec2), ∀ x ∈ weldLoop tolerance2 seen rest, x ∈ rest
  | _, [] => by intro x hx; simp [weldLoop] at hx
  | seen, p :: rest => by
    intro x hx
    simp only [weldLoop] at hx
    rcases List.mem_append.mp hx with hmem | hmem
    · split at hmem
      · rw [List.mem_singleton.mp hmem]
        exact List.mem_cons_self p rest
      · simp at hmem
    · exact List.mem_cons_of_mem p (weldLoop_subset tolerance2 (seen ++ [p]) rest x hmem)

theorem weldLoop_close_nil (tolerance2 : ℚ) :
    ∀ (seen rest : List Vec2),
      (∀ p ∈ rest, ∃ q ∈ seen, p.distanceSquared q < tolerance2) →
      weldLoop tolerance2 seen rest = []
  | _, [] => fun _ => rfl
  | seen, p :: rest => by
    intro h
    obtain ⟨q, hq, hclose⟩ := h p (List.mem_cons_self p rest)
    have hall : (seen.all fun prev => decide (¬ p.distanceSquared prev < tolerance2)) =
        false := by
      rw [List.all_eq_false]
      refine ⟨q, hq, ?_⟩
      simpa using hclose
    simp only [weldLoop, hall, Bool.false_eq_true, if_false, List.nil_append]
    exact weldLoop_close_nil tolerance2 (seen ++ [p]) rest fun p1 hp1 =>
      (h p1 (List.mem_cons_of_mem p hp1)).imp fun q1 hq1 =>
        ⟨List.mem_append_left [p] hq1.1, hq1.2⟩

theorem maxElementLoop_lt (base : Vec2) :
    ∀ (rest : List Vec2) (i bestIdx : Nat) (bestVal : ℚ), bestIdx < i →
      maxElementLoop base rest i bestIdx bestVal < i + rest.length
  | [], i, bestIdx, bestVal => fun h => by
    simpa [maxElementLoop] using h
  | p :: rest, i, bestIdx, bestVal => fun h => by
    simp only [maxElementLoop]
    simp only [List.length_cons]
    split
    · have hr := maxElementLoop_lt base rest (i + 1) i (base.distanceSquared p)
        (Nat.lt_succ_self i)
      omega
    · have hr := maxElementLoop_lt base rest (i + 1) bestIdx bestVal
        (Nat.lt_succ_of_lt h)
      omega

theorem findFurthestPointIndex_lt (points : List Vec2) (base : Vec2)
    (h : points ≠ []) : findFurthestPointIndex points base < points.length := by
  cases points with
  | nil => exact absurd rfl h
  | cons p rest =>
    have := maxElementLoop_lt base rest 1 0 (base.distanceSquared p) Nat.one_pos
    simpa [findFurthestPointIndex, Nat.succ_add, Nat.add_comm] using this

theorem getD_mem (l : List Vec2) (n : Nat) (d : Vec2) (h : n < l.length) :
    l.getD n d ∈ l := by
  rw [List.getD_eq_getElem l d h]
  exact List.getElem_mem h

theorem getLastD_mem (l : List Vec2) (d : Vec2) (h : l ≠ []) : l.getLastD d ∈ l := by
  have heq : l.getLastD d = l.getLast h := by
    cases l with
    | nil => exact absurd rfl h
    | cons x xs => simp [List.getLastD_eq_getLast?, List.getLast?_eq_getLast]
  rw [heq]
  exact List.getLast_mem h

theorem removeSwap_subset (l : List Vec2) (i : Nat) :
    ∀ x ∈ removeSwap l i, x ∈ l := by
  intro x hx
  by_cases hl : l = []
  · subst hl
    simp [removeSwap] at hx
  · have hx1 : x ∈ l.set i (l.getLastD Vec2.zero) := List.dropLast_subset _ hx
    rcases List.mem_or_eq_of_mem_set hx1 with hmem | heq
    · exact hmem
    · rw [heq]
      exact getLastD_mem l Vec2.zero hl

theorem cross_smul_right (u : Vec2) (s : ℚ) (v : Vec2) :
    u.cross (s * v) = s * u.cross v := by
  obtain ⟨ux, uy⟩ := u
  obtain ⟨vx, vy⟩ := v
  simp only [Vec2.smul_mk, Vec2.cross_mk]
  ring

theorem cross_zero_right (u : Vec2) : u.cross Vec2.zero = 0 := by
  obtain ⟨ux, uy⟩ := u
  simp [Vec2.cross]

theorem cross_normalize_zero (u v : Vec2) (h : u.cross v = 0) :
    u.cross v.normalize = 0 := by
  unfold Vec2.normalize Vec2.normalizeLen
  dsimp only
  split
  · exact cross_zero_right u
  · rw [cross_smul_right, h, mul_zero]

theorem fromWelded_collinear (computed : List Vec2) (center : Vec2)
    (hne : computed ≠ [])
    (hcol : ∀ p ∈ computed, ∀ q ∈ computed, ∀ r ∈ computed,
      (q - p).cross (r - p) = 0) :
    Hull.fromWelded computed center = ⟨[]⟩ := by
  simp only [Hull.fromWelded]
  generalize hi1 : findFurthestPointIndex computed center = i1
  generalize hp1 : computed.getD i1 Vec2.zero = p1
  generalize hc1 : removeSwap computed i1 = c1
  generalize hi2 : findFurthestPointIndex c1 p1 = i2
  generalize hp2 : c1.getD i2 Vec2.zero = p2
  generalize hc2 : removeSwap c1 i2 = c2
  have hp1mem : p1 ∈ computed := by
    rw [← hp1]
    apply getD_mem
    rw [← hi1]
    exact findFurthestPointIndex_lt computed center hne
  have hright : (c2.filter fun p =>
      decide ((p - p1).cross ((p2 - p1).normalize) ≥ BPP_LINEAR_SLOP * 2)) = [] := by
    apply List.filter_eq_nil_iff.mpr
    intro p hp
    have hpc1 : p ∈ c1 := by
      rw [← hc2] at hp
      exact removeSwap_subset c1 i2 p hp
    have hpcomputed : p ∈ computed := by
      rw [← hc1] at hpc1
      exact removeSwap_subset computed i1 p hpc1
    have hc1ne : c1 ≠ [] := by
      intro hnil
      rw [hnil] at hpc1
      exact absurd hpc1 (List.not_mem_nil p)
    have hp2mem : p2 ∈ computed := by
      have hp2c1 : p2 ∈ c1 := by
        rw [← hp2]
        apply getD_mem
        rw [← hi2]
        exact findFurthestPointIndex_lt c1 p1 hc1ne
      rw [← hc1] at hp2c1
      exact removeSwap_subset computed i1 p2 hp2c1
    have hcr : (p - p1).cross (p2 - p1) = 0 := hcol p1 hp1mem p hpcomputed p2 hp2mem
    rw [decide_eq_true_eq, cross_normalize_zero _ _ hcr]
    norm_num [BPP_LINEAR_SLOP]
  rw [hright, stitch_right_nil]

/-- C3: `Hull::create` returns an explicitly empty hull (`count = 0`) on
every degenerate input: fewer than 3 points, more than
`BPP_MAX_POLYGON_VERTICES` points, all points pairwise within the weld
tolerance, or all points collinear.  (The Lean model is a total function,
so no input can throw.) -/
theorem hull_create_degenerate (points : List Vec2)
    (h : points.length < 3 ∨ points.length > BPP_MAX_POLYGON_VERTICES ∨
      (∀ p ∈ points, ∀ q ∈ points,
        p.distanceSquared q < BPP_LINEAR_SLOP * BPP_LINEAR_SLOP * 16) ∨
      (∀ p ∈ points, ∀ q ∈ points, ∀ r ∈ points, (q - p).cross (r - p) = 0)) :
    (Hull.create points).count = 0 := by
  by_cases hsize : points.length < 3 ∨ points.length > BPP_MAX_POLYGON_VERTICES
  · simp only [Hull.create]
    rw [if_pos hsize]
    rfl
  · have h3 : 3 ≤ points.length := by
      rcases not_or.mp hsize with ⟨h1, _⟩
      omega
    rcases h with h | h | h | h
    · omega
    · exact absurd (Or.inr h) hsize
    · simp only [Hull.create]
      rw [if_neg hsize]
      obtain ⟨p, rest, rfl⟩ : ∃ p rest, points = p :: rest := by
        cases points with
        | nil => simp at h3
        | cons p rest => exact ⟨p, rest, rfl⟩
      have hcomp : weldLoop (BPP_LINEAR_SLOP * BPP_LINEAR_SLOP * 16) [] (p :: rest) =
          [p] := by
        simp only [weldLoop, List.all_nil, if_true, List.nil_append]
        rw [weldLoop_close_nil (BPP_LINEAR_SLOP * BPP_LINEAR_SLOP * 16) [p] rest]
        · simp
        · intro p1 hp1
          exact ⟨p, List.mem_singleton_self p,
            h p1 (List.mem_cons_of_mem p hp1) p (List.mem_cons_self p rest)⟩
      rw [hcomp]
      norm_num [Hull.count]
    · simp only [Hull.create]
      rw [if_neg hsize]
      by_cases hlen :
          (weldLoop (BPP_LINEAR_SLOP * BPP_LINEAR_SLOP * 16) [] points).length < 3
      · rw [if_pos hlen]
        rfl
      · rw [if_neg hlen]
        have hne : weldLoop (BPP_LINEAR_SLOP * BPP_LINEAR_SLOP * 16) [] points ≠ [] := by
          intro hnil
          rw [hnil] at hlen
          simp at hlen
        have hcol : ∀ a ∈ weldLoop (BPP_LINEAR_SLOP * BPP_LINEAR_SLOP * 16) [] points,
            ∀ b ∈ weldLoop (BPP_LINEAR_SLOP * BPP_LINEAR_SLOP * 16) [] points,
            ∀ c ∈ weldLoop (BPP_LINEAR_SLOP * BPP_LINEAR_SLOP * 16) [] points,
            (b - a).cross (c - a) = 0 := by
          intro a ha b hb c hc
          exact h a (weldLoop_subset _ _ _ a ha) b (weldLoop_subset _ _ _ b hb)
            c (weldLoop_subset _ _ _ c hc)
        rw [fromWelded_collinear _ _ hne hcol]
        rfl

/-- C3 witness: three exactly collinear points yield an empty hull. -/
theorem hull_create_degenerate_witness :
    (Hull.create [⟨0, 0⟩, ⟨1, 1⟩, ⟨2, 2⟩]).count = 0 :=
  hull_create_degenerate _ (Or.inr (Or.inr (Or.inr (by
    intro p hp q hq r hr
    fin_cases hp <;> fin_cases hq <;> fin_cases hr <;> norm_num [Vec2.cross]))))

theorem shapeCastLoop_count_le (input : ShapeCastPairInput) :
    ∀ (fuel : Nat) (st : CastState), (ShapeCast.loop input fuel st).2 ≤ fuel
  | 0, _ => Nat.le.refl
  | fuel + 1, st => by
    simp only [ShapeCast.loop]
    cases hs : ShapeCast.step input st with
    | hit out => exact Nat.succ_le_succ (Nat.zero_le fuel)
    | miss => exact Nat.succ_le_succ (Nat.zero_le fuel)
    | advance st1 => exact Nat.succ_le_succ (shapeCastLoop_count_le input fuel st1)

theorem findRootLoop_count_le (sv : SeparationSolver) (target tolerance : ℚ) :
    ∀ (fuel i : Nat) (a fa b fb : ℚ),
      (findRootLoop sv target tolerance fuel i a fa b fb).2 ≤ fuel
  | 0, _, _, _, _, _ => Nat.le.refl
  | fuel + 1, i, a, fa, b, fb => by
    simp only [findRootLoop]
    repeat' split
    all_goals
      first
        | exact Nat.succ_le_succ (Nat.zero_le fuel)
        | exact Nat.succ_le_succ
            (findRootLoop_count_le sv target tolerance fuel (i + 1) _ _ _ _)

theorem toiLoop_count_le (input : TOIInput) (target tolerance : ℚ) :
    ∀ (fuel : Nat) (t1 : ℚ) (cache : SimplexCache),
      (toiLoop input target tolerance fuel t1 cache).2 ≤ fuel
  | 0, _, _ => Nat.le.refl
  | fuel + 1, t1, cache => by
    simp only [toiLoop]
    repeat' split
    all_goals
      first
        | exact Nat.succ_le_succ (Nat.zero_le fuel)
        | exact Nat.succ_le_succ (toiLoop_count_le input target tolerance fuel _ _)

/-- C7: every query terminates under its hard compile-time iteration bound:
the `ShapeCast::test` sweep loop performs at most
`BPP_COLLISION_DISTANCE_MAX_ITERATIONS` (20) distance iterations and an
exhausted budget is a miss (`nullopt`); the outer conservative-advancement
loop of `TOI::compute` performs at most 20 iterations and an exhausted
budget returns FAILED; and the bisection/secant root finder performs at
most 50 iterations.  (All the model's functions are total Lean functions,
so every query returns an encoded result.) -/
theorem iteration_budgets_bound_all_queries :
    (∀ (input : ShapeCastPairInput) (st : CastState),
      (ShapeCast.loop input BPP_COLLISION_DISTANCE_MAX_ITERATIONS st).2 ≤
        BPP_COLLISION_DISTANCE_MAX_ITERATIONS ∧
      (ShapeCast.loop input 0 st).1 = none) ∧
    (∀ (input : TOIInput) (target tolerance t1 : ℚ) (cache : SimplexCache),
      (toiLoop input target tolerance BPP_COLLISION_DISTANCE_MAX_ITERATIONS 0
        cache).2 ≤ BPP_COLLISION_DISTANCE_MAX_ITERATIONS ∧
      (toiLoop input target tolerance 0 t1 cache).1.state = .failed) ∧
    (∀ (sv : SeparationSolver) (target tolerance a fa b fb : ℚ),
      (findRootLoop sv target tolerance 50 0 a fa b fb).2 ≤ 50) :=
  ⟨fun input st => ⟨shapeCastLoop_count_le input _ st, rfl⟩,
    fun input target tolerance _ cache =>
      ⟨toiLoop_count_le input target tolerance _ 0 cache, rfl⟩,
    fun sv target tolerance a fa b fb =>
      findRootLoop_count_le sv target tolerance 50 0 a fa b fb⟩
